import Mathlib

/-!
Verification of the CineCrib recommendation query builder
(`src/backend/server.js`, handler `POST /api/v1/recommendations`,
lines 447–645, against the schema in `src/backend/db.sql`).

The handler assembles two SQL queries over the tables
`content`, `content_genres`, `genres`, `content_streaming_availability`,
`streaming_services` (all LEFT JOINs from `content`), shares one
`whereClauses` array between them, runs `COUNT(DISTINCT c.uid)` for
`total_results`, and runs the page query with
`GROUP BY c.uid ORDER BY c.rotten_tomatoes_score DESC, c.imdb_rating DESC
LIMIT $n OFFSET $n+1`.

The embedding below models:
  * rows of `content` (only the columns that participate in filtering,
    grouping or ordering; descriptive columns such as `poster_url`,
    `synopsis`, `tagline`, `director`, `main_cast` never influence which
    rows are returned or their order, so they are omitted),
  * the two join tables (the schema declares
    `content_genres.genre_uid REFERENCES genres(uid)` and
    `content_streaming_availability.service_uid REFERENCES
    streaming_services(uid)`, both NOT NULL, so after the FK-enforced
    join the row's `g.uid` / `ss.uid` is exactly the uid stored in the
    join table, and is NULL exactly when the content has no join row),
  * the WHERE clauses in SQL three-valued logic: a row survives `WHERE`
    only when the conjunction evaluates to TRUE, so any comparison with
    a NULL operand (which yields UNKNOWN) is modelled as `false`.  All
    clause bodies are NOT-free at their nullable operands
    (`x NOT IN (…)` is applied to a possibly-NULL `x` but the list
    elements are caller strings, never NULL), so the encoding
    UNKNOWN ↦ `false` is exact for row survival.
-/

namespace CineCrib

/-- One row of the `content` table (`db.sql`): `release_year`,
`duration_minutes`, `number_of_seasons`, `imdb_rating`,
`rotten_tomatoes_score`, `parental_rating` are nullable;
`content_type` is `'movie'` or `'tv_show'`.  `imdb_rating` is
NUMERIC(3,1), modelled as ℚ; `rotten_tomatoes_score` is INTEGER. -/
structure Content where
  uid : String
  content_type : String
  release_year : Option Int
  duration_minutes : Option Int
  number_of_seasons : Option Int
  imdb_rating : Option ℚ
  rotten_tomatoes_score : Option Int
  parental_rating : Option String
deriving DecidableEq, Repr

/-- The Content Store: the `content` table plus the two join tables.
`content_genres` holds pairs `(content_uid, genre_uid)`;
`availability` holds one pair `(content_uid, service_uid)` per
`content_streaming_availability` row (the `watch_link`/`region` columns
do not participate in filtering or counting). -/
structure Store where
  contents : List Content
  content_genres : List (String × String)
  availability : List (String × String)
deriving Repr

/-- Well-formedness granted by the schema: `content.uid` is the PRIMARY
KEY, so uids are pairwise distinct. -/
def wf (st : Store) : Prop := (st.contents.map Content.uid).Nodup

/-- The request body after destructuring with defaults
(`server.js` lines 448–462).  `streaming_service_uids` and `genre_uids`
have no destructuring default in the source (they stay `undefined` when
absent), hence `Option`; the guards `xs && xs.length > 0` make
`none` behave like `some []`.  `parental_ratings` models the parsed
value of `parental_rating_filter_json` (default `'[]'` parses to `[]`);
the source adds the clause exactly when the parsed array is non-empty. -/
structure FilterSpec where
  streaming_service_uids : Option (List String) := none
  genre_uids : Option (List String) := none
  min_release_year : Int := 1900
  max_release_year : Int := 2026
  preferred_duration_category : String := "any"
  min_rating : ℚ := 0
  preferred_content_type : String := "both"
  parental_ratings : List String := []
  excluded_genre_uids : List String := []
  excluded_service_uids : List String := []
  page : Int := 1
  page_size : Int := 20
deriving DecidableEq, Repr

/-- The raw JSON request body: every field may be absent. -/
structure RawRequest where
  streaming_service_uids : Option (List String) := none
  genre_uids : Option (List String) := none
  min_release_year : Option Int := none
  max_release_year : Option Int := none
  preferred_duration_category : Option String := none
  min_rating : Option ℚ := none
  preferred_content_type : Option String := none
  parental_ratings : Option (List String) := none
  excluded_genre_uids : Option (List String) := none
  excluded_service_uids : Option (List String) := none
  page : Option Int := none
  page_size : Option Int := none
deriving Repr

/-- The destructuring defaults of `server.js` lines 448–462:
`min_release_year = 1900`, `max_release_year = new Date().getFullYear()`
(passed in as `currentYear`), `preferred_duration_category = 'any'`,
`min_rating = 0.0`, `preferred_content_type = 'both'`,
`parental_rating_filter_json = '[]'`, excluded sets `[]`,
`page = 1`, `page_size = 20`. -/
def normalize (currentYear : Int) (r : RawRequest) : FilterSpec where
  streaming_service_uids := r.streaming_service_uids
  genre_uids := r.genre_uids
  min_release_year := r.min_release_year.getD 1900
  max_release_year := r.max_release_year.getD currentYear
  preferred_duration_category := r.preferred_duration_category.getD "any"
  min_rating := r.min_rating.getD 0
  preferred_content_type := r.preferred_content_type.getD "both"
  parental_ratings := r.parental_ratings.getD []
  excluded_genre_uids := r.excluded_genre_uids.getD []
  excluded_service_uids := r.excluded_service_uids.getD []
  page := r.page.getD 1
  page_size := r.page_size.getD 20

/-! ## Clause guards and clause semantics

Each definition mirrors one `whereClauses.push(...)` site
(`server.js` lines 507–577): the guard is the enclosing `if`, the
`Ok`-function is the truth of the pushed SQL fragment on one joined row
under three-valued logic. -/

/-- Guard of `c.content_type = $n` (line 508):
`preferred_content_type !== 'both'`. -/
def contentTypeActive (fs : FilterSpec) : Bool :=
  fs.preferred_content_type != "both"

def contentTypeOk (fs : FilterSpec) (c : Content) : Bool :=
  c.content_type == fs.preferred_content_type

/-- Guard of the release-year clause (line 514):
`if (min_release_year && max_release_year)` — JavaScript numeric
truthiness, i.e. the clause is skipped when either bound is `0`
(or `null`/`NaN`, which behave like `0` here). -/
def yearActive (fs : FilterSpec) : Bool :=
  fs.min_release_year != 0 && fs.max_release_year != 0

/-- Clause `c.release_year BETWEEN $min AND $max` (line 516); NULL year ⇒ UNKNOWN. -/
def yearOk (lo hi : Int) (y : Option Int) : Bool :=
  match y with
  | none => false
  | some v => decide (lo ≤ v) && decide (v ≤ hi)

/-- Guard of the rating clause (line 520): `min_rating > 0`. -/
def ratingActive (fs : FilterSpec) : Bool := decide (0 < fs.min_rating)

/-- Clause `(c.imdb_rating >= $r OR c.rotten_tomatoes_score >= $r)` (line 522);
a NULL operand contributes UNKNOWN to the OR. -/
def ratingOk (fs : FilterSpec) (c : Content) : Bool :=
  (match c.imdb_rating with
   | none => false
   | some v => decide (fs.min_rating ≤ v)) ||
  (match c.rotten_tomatoes_score with
   | none => false
   | some v => decide (fs.min_rating ≤ (v : ℚ)))

/-- Guard of `c.parental_rating IN (…)` (lines 526–528): the parsed
array is non-empty. -/
def parentalActive (fs : FilterSpec) : Bool := decide (0 < fs.parental_ratings.length)

def parentalOk (fs : FilterSpec) (c : Content) : Bool :=
  match c.parental_rating with
  | none => false
  | some p => fs.parental_ratings.contains p

/-- The `switch (preferred_duration_category)` body (lines 537–547):
`some cond` for the three recognised buckets, `none` for any other
string (the source leaves `durationCondition = ''`, which is falsy, so
no clause is pushed). -/
def durationCondition (bucket : String) (c : Content) : Option Bool :=
  if bucket == "short" then
    some ((c.content_type == "movie" &&
            (match c.duration_minutes with
             | none => false
             | some d => decide (d < 60))) ||
          (c.content_type == "tv_show" &&
            (match c.number_of_seasons with
             | none => false
             | some n => n == 1)))
  else if bucket == "medium" then
    some ((c.content_type == "movie" &&
            (match c.duration_minutes with
             | none => false
             | some d => decide (60 ≤ d) && decide (d ≤ 120))) ||
          (c.content_type == "tv_show" &&
            (match c.number_of_seasons with
             | none => false
             | some n => decide (2 ≤ n) && decide (n ≤ 4))))
  else if bucket == "long" then
    some ((c.content_type == "movie" &&
            (match c.duration_minutes with
             | none => false
             | some d => decide (120 < d))) ||
          (c.content_type == "tv_show" &&
            (match c.number_of_seasons with
             | none => false
             | some n => decide (4 < n))))
  else none

/-- The duration filter as it acts on a row: outer guard
`preferred_duration_category !== 'any'` (line 535), then the switch;
an unrecognised bucket pushes no clause, so every row passes. -/
def durationOk (fs : FilterSpec) (c : Content) : Bool :=
  if fs.preferred_duration_category != "any" then
    match durationCondition fs.preferred_duration_category c with
    | some b => b
    | none => true
  else true

/-- SQL `x IN (s₁,…,sₖ)` on a possibly-NULL operand: NULL yields UNKNOWN
(modelled `false`); otherwise membership. -/
def inClause (x : Option String) (s : List String) : Bool :=
  match x with
  | none => false
  | some v => s.contains v

/-- SQL `x NOT IN (s₁,…,sₖ)`: for NULL `x` SQL yields UNKNOWN — the row is
NOT kept (this is the three-valued-logic pitfall: `NOT IN` does not
default to TRUE on a NULL operand). -/
def notInClause (x : Option String) (s : List String) : Bool :=
  match x with
  | none => false
  | some v => !s.contains v

/-- Number of elements of an optional uid list, as the guards
`xs && xs.length > 0` see it (`undefined`/`null` ⇒ 0). -/
def optLen (o : Option (List String)) : Nat :=
  match o with
  | some l => l.length
  | none => 0

/-- Guard of `g.uid IN (…)` (line 554). -/
def genresActive (fs : FilterSpec) : Bool := decide (0 < optLen fs.genre_uids)

/-- Guard of `g.uid NOT IN (…)` (line 560). -/
def exGenresActive (fs : FilterSpec) : Bool := decide (0 < fs.excluded_genre_uids.length)

/-- Guard of `ss.uid IN (…)` (line 568). -/
def servicesActive (fs : FilterSpec) : Bool := decide (0 < optLen fs.streaming_service_uids)

/-- Guard of `ss.uid NOT IN (…)` (line 574). -/
def exServicesActive (fs : FilterSpec) : Bool := decide (0 < fs.excluded_service_uids.length)

/-- The content-level (row-independent) conjuncts, in source push order:
content type, release year, rating floor, parental rating, duration. -/
def baseOk (fs : FilterSpec) (c : Content) : Bool :=
  (if contentTypeActive fs then contentTypeOk fs c else true) &&
  (if yearActive fs then yearOk fs.min_release_year fs.max_release_year c.release_year else true) &&
  (if ratingActive fs then ratingOk fs c else true) &&
  (if parentalActive fs then parentalOk fs c else true) &&
  durationOk fs c

/-- Truth of the full `WHERE` conjunction on one joined row
`(c, g.uid, ss.uid)` — the same clause list is used verbatim by the page
query and the count query (`server.js` lines 580–583 and 601). -/
def rowSatisfies (fs : FilterSpec) (c : Content) (g s : Option String) : Bool :=
  baseOk fs c &&
  (if genresActive fs then inClause g (fs.genre_uids.getD []) else true) &&
  (if exGenresActive fs then notInClause g fs.excluded_genre_uids else true) &&
  (if servicesActive fs then inClause s (fs.streaming_service_uids.getD []) else true) &&
  (if exServicesActive fs then notInClause s fs.excluded_service_uids else true)

/-- The two genre-membership conjuncts of the WHERE clause (lines
554–563), as they evaluate on the `g.uid` column of one joined row. -/
def genreClausesOk (fs : FilterSpec) (g : Option String) : Bool :=
  (if genresActive fs then inClause g (fs.genre_uids.getD []) else true) &&
  (if exGenresActive fs then notInClause g fs.excluded_genre_uids else true)

/-- The two service-membership conjuncts of the WHERE clause (lines
568–577), as they evaluate on the `ss.uid` column of one joined row. -/
def serviceClausesOk (fs : FilterSpec) (s : Option String) : Bool :=
  (if servicesActive fs then inClause s (fs.streaming_service_uids.getD []) else true) &&
  (if exServicesActive fs then notInClause s fs.excluded_service_uids else true)

/-! ## The LEFT JOIN chain -/

/-- The `g.uid` values produced for content `c` by
`LEFT JOIN content_genres … LEFT JOIN genres …`: one value per join row,
or a single NULL when `c` has no `content_genres` row. -/
def genreRows (st : Store) (c : Content) : List (Option String) :=
  let gs := (st.content_genres.filter (fun p => p.1 == c.uid)).map
    (fun p => (some p.2 : Option String))
  if gs.isEmpty then [none] else gs

/-- The `ss.uid` values produced for content `c` by
`LEFT JOIN content_streaming_availability … LEFT JOIN streaming_services …`. -/
def serviceRows (st : Store) (c : Content) : List (Option String) :=
  let ss := (st.availability.filter (fun p => p.1 == c.uid)).map
    (fun p => (some p.2 : Option String))
  if ss.isEmpty then [none] else ss

/-- The joined rows for one content item: the two independent LEFT JOIN
chains multiply out. -/
def joinedRows (st : Store) (c : Content) : List (Option String × Option String) :=
  (genreRows st c).flatMap (fun g => (serviceRows st c).map (fun s => (g, s)))

/-- Whether `c` survives `WHERE … GROUP BY c.uid`: at least one of its joined
rows satisfies the conjunction. -/
def matchesFilter (fs : FilterSpec) (st : Store) (c : Content) : Bool :=
  (joinedRows st c).any (fun r => rowSatisfies fs c r.1 r.2)

/-- The grouped result set of the page query before ORDER BY / LIMIT /
OFFSET (one group per matching content item, in table order). -/
def pageGroups (fs : FilterSpec) (st : Store) : List Content :=
  st.contents.filter (fun c => matchesFilter fs st c)

/-- All joined rows of the whole store (the relation the count query
ranges over). -/
def allRows (st : Store) : List (Content × Option String × Option String) :=
  st.contents.flatMap (fun c => (joinedRows st c).map (fun r => (c, r.1, r.2)))

/-- Count query `SELECT COUNT(DISTINCT c.uid) … WHERE <same clauses>`
(`server.js` lines 594–604): the number of distinct content uids among
the joined rows that satisfy the shared `whereClauses`. -/
def countDistinct (fs : FilterSpec) (st : Store) : Nat :=
  ((((allRows st).filter (fun r => rowSatisfies fs r.1 r.2.1 r.2.2)).map
    (fun r => r.1.uid)).dedup).length

/-! ## ORDER BY / LIMIT / OFFSET (page query, `server.js` lines 585–591)

`ORDER BY c.rotten_tomatoes_score DESC, c.imdb_rating DESC` — PostgreSQL
sorts NULLs first under DESC, and imposes no constraint at all on the
relative order of rows whose two sort keys are equal.  The execution of
the page query is therefore a relation, not a function: any ordering of
the groups that is non-increasing in the lexicographic key may be
returned, and the LIMIT/OFFSET slice is taken from that ordering. -/

/-- Strict "sorts above" on the first key (`rotten_tomatoes_score DESC`,
NULLS FIRST). -/
def fstAbove (x y : Option Int) : Bool :=
  match x, y with
  | none, some _ => true
  | some v, some w => decide (w < v)
  | _, _ => false

/-- Non-strict "sorts no later" on the second key (`imdb_rating DESC`,
NULLS FIRST). -/
def sndAtLeast (x y : Option ℚ) : Bool :=
  match x, y with
  | none, _ => true
  | some _, none => false
  | some v, some w => decide (w ≤ v)

/-- Whether `a` may appear no later than `b` under the ORDER BY. -/
def rankGe (a b : Content) : Bool :=
  fstAbove a.rotten_tomatoes_score b.rotten_tomatoes_score ||
  (a.rotten_tomatoes_score == b.rotten_tomatoes_score &&
    sndAtLeast a.imdb_rating b.imdb_rating)

/-- A list is admissible output of the ORDER BY clause. -/
def sortedByRating (l : List Content) : Prop :=
  l.Chain' (fun a b => rankGe a b = true)

/-- The source's `const offset = (page - 1) * page_size` (`server.js` line 466). -/
def offsetOf (fs : FilterSpec) : Int := (fs.page - 1) * fs.page_size

/-- Whether `res` is a possible response of the page query: some admissible
ordering `L` of the matching groups exists with `res` the
`LIMIT page_size OFFSET (page-1)*page_size` slice of `L`.  PostgreSQL
rejects negative LIMIT/OFFSET, so the relation requires them
non-negative. -/
def execPage (fs : FilterSpec) (st : Store) (res : List Content) : Prop :=
  0 ≤ offsetOf fs ∧ 0 ≤ fs.page_size ∧
  ∃ L : List Content, L.Perm (pageGroups fs st) ∧ sortedByRating L ∧
    res = (L.drop (offsetOf fs).toNat).take fs.page_size.toNat

/-! ## The HTTP handler outcome (`server.js` lines 447–645) -/

/-- The possible response classes of `POST /api/v1/recommendations`.
`validationError` is the 4xx-equivalent the specification's taxonomy
prescribes for malformed filter input; it appears here so that claims
about it can be stated, but the handler below — transcribed from the
source — never produces it, because the source performs no validation.
`success` carries the `total_results` field of the 200 envelope
(the `recommendations` array is modelled by the `execPage` relation);
`serverError` is the catch-all 500 (line 641). -/
inductive RecResponse where
  | validationError (msg : String) : RecResponse
  | success (total_results : Nat) (page page_size : Int) : RecResponse
  | serverError : RecResponse
deriving DecidableEq, Repr

/-- The handler: destructure with defaults (no validation of `page`,
`page_size`, year order, or uid shape), compute `offset`, run the count
query, then the page query.  A negative `offset` or `page_size` makes
PostgreSQL reject the page query, which the catch block turns into a
500; otherwise the handler responds 200 with `total_results` from the
count query. -/
def handle (currentYear : Int) (raw : RawRequest) (st : Store) : RecResponse :=
  let fs := normalize currentYear raw
  if offsetOf fs < 0 || fs.page_size < 0 then RecResponse.serverError
  else RecResponse.success (countDistinct fs st) fs.page fs.page_size

/-! ## The generated SQL text (`server.js` lines 468–604)

The source builds the query strings by appending clause fragments whose
only caller-dependent parts are `$k` placeholder indices; every
caller-supplied value is pushed onto `queryParams` instead.  The
placeholder index for a fragment equals one plus the number of
parameters pushed before it, which the transcription below computes
cumulatively, exactly like `queryParams.length` does in the source. -/

def ph (n : Nat) : String := "$" ++ toString n

/-- Rendering of `list.map((_, i) => "$" + (start + i)).join(',')` — the source maps
over the value list but uses only its length and the running parameter
count. -/
def placeholderList (start len : Nat) : String :=
  String.intercalate "," ((List.range len).map (fun i => ph (start + i)))

/-- The literal condition string of the duration switch (values never
appear in it). -/
def durationSQL (bucket : String) : Option String :=
  if bucket == "short" then
    some "(c.content_type = 'movie' AND c.duration_minutes < 60) OR (c.content_type = 'tv_show' AND c.number_of_seasons = 1)"
  else if bucket == "medium" then
    some "(c.content_type = 'movie' AND c.duration_minutes BETWEEN 60 AND 120) OR (c.content_type = 'tv_show' AND c.number_of_seasons BETWEEN 2 AND 4)"
  else if bucket == "long" then
    some "(c.content_type = 'movie' AND c.duration_minutes > 120) OR (c.content_type = 'tv_show' AND c.number_of_seasons > 4)"
  else none

/-- Parameters pushed by each guarded block, in source order. -/
def ctParams (fs : FilterSpec) : Nat := if contentTypeActive fs then 1 else 0

def yearParams (fs : FilterSpec) : Nat := if yearActive fs then 2 else 0

def ratingParams (fs : FilterSpec) : Nat := if ratingActive fs then 2 else 0

/-- The parental block pushes the parsed array elementwise (zero when
the guard is off, since the guard is exactly non-emptiness). -/
def parentalParams (fs : FilterSpec) : Nat := fs.parental_ratings.length

def genresParams (fs : FilterSpec) : Nat := optLen fs.genre_uids

def exGenresParams (fs : FilterSpec) : Nat := fs.excluded_genre_uids.length

def servicesParams (fs : FilterSpec) : Nat := optLen fs.streaming_service_uids

def exServicesParams (fs : FilterSpec) : Nat := fs.excluded_service_uids.length

/-- The `whereClauses` array (lines 505–577): each entry is the pushed
fragment with its placeholder indices; the running offsets reproduce
`queryParams.length` at each push site. -/
def whereClauses (fs : FilterSpec) : List String :=
  let n0 := 0
  let n1 := n0 + ctParams fs
  let n2 := n1 + yearParams fs
  let n3 := n2 + ratingParams fs
  let n4 := n3 + parentalParams fs
  let n5 := n4 + genresParams fs
  let n6 := n5 + exGenresParams fs
  let n7 := n6 + servicesParams fs
  (if contentTypeActive fs then ["c.content_type = " ++ ph (n0 + 1)] else []) ++
  (if yearActive fs then
    ["c.release_year BETWEEN " ++ ph (n1 + 1) ++ " AND " ++ ph (n1 + 2)] else []) ++
  (if ratingActive fs then
    ["(c.imdb_rating >= " ++ ph (n2 + 1) ++ " OR c.rotten_tomatoes_score >= " ++ ph (n2 + 2) ++ ")"] else []) ++
  (if parentalActive fs then
    ["c.parental_rating IN (" ++ placeholderList (n3 + 1) (parentalParams fs) ++ ")"] else []) ++
  (match (if fs.preferred_duration_category != "any" then
            durationSQL fs.preferred_duration_category
          else none) with
   | some d => ["(" ++ d ++ ")"]
   | none => []) ++
  (if genresActive fs then
    ["g.uid IN (" ++ placeholderList (n4 + 1) (genresParams fs) ++ ")"] else []) ++
  (if exGenresActive fs then
    ["g.uid NOT IN (" ++ placeholderList (n5 + 1) (exGenresParams fs) ++ ")"] else []) ++
  (if servicesActive fs then
    ["ss.uid IN (" ++ placeholderList (n6 + 1) (servicesParams fs) ++ ")"] else []) ++
  (if exServicesActive fs then
    ["ss.uid NOT IN (" ++ placeholderList (n7 + 1) (exServicesParams fs) ++ ")"] else [])

/-- Total `queryParams.length` after all WHERE pushes. -/
def totalParams (fs : FilterSpec) : Nat :=
  ctParams fs + yearParams fs + ratingParams fs + parentalParams fs +
  genresParams fs + exGenresParams fs + servicesParams fs + exServicesParams fs

/-- Fragment ` WHERE …` or empty (lines 581–583 / 601), shared by both queries. -/
def whereSQL (fs : FilterSpec) : String :=
  if (whereClauses fs).length > 0 then
    " WHERE " ++ String.intercalate " AND " (whereClauses fs)
  else ""

/-- The SELECT/FROM/JOIN prefix of the page query (lines 468–502;
whitespace normalised — it contains no caller data). -/
def pageSelectPrefix : String :=
  "SELECT c.uid, c.external_api_id, c.title, c.release_year, c.content_type, c.poster_url, c.synopsis, c.tagline, c.duration_minutes, c.number_of_seasons, c.imdb_rating, c.rotten_tomatoes_score, c.parental_rating, c.director, c.main_cast, json_agg(DISTINCT jsonb_build_object('uid', g.uid, 'name', g.name)) FILTER (WHERE g.uid IS NOT NULL) AS genres, json_agg(DISTINCT jsonb_build_object('service_uid', ss.uid, 'name', ss.name, 'logo_url', ss.logo_url, 'watch_link', csa.watch_link)) FILTER (WHERE ss.uid IS NOT NULL) AS available_on_services FROM content c LEFT JOIN content_genres cg ON c.uid = cg.content_uid LEFT JOIN genres g ON cg.genre_uid = g.uid LEFT JOIN content_streaming_availability csa ON c.uid = csa.content_uid LEFT JOIN streaming_services ss ON csa.service_uid = ss.uid"

/-- The full page-query text (lines 468–591): prefix, shared WHERE,
GROUP BY/ORDER BY, and LIMIT/OFFSET placeholders numbered after every
WHERE parameter. -/
def pageQuerySQL (fs : FilterSpec) : String :=
  pageSelectPrefix ++ whereSQL fs ++
  " GROUP BY c.uid ORDER BY c.rotten_tomatoes_score DESC, c.imdb_rating DESC LIMIT " ++
  ph (totalParams fs + 1) ++ " OFFSET " ++ ph (totalParams fs + 2) ++ ";"

/-- The full count-query text (lines 594–602). -/
def countQuerySQL (fs : FilterSpec) : String :=
  "SELECT COUNT(DISTINCT c.uid) FROM content c LEFT JOIN content_genres cg ON c.uid = cg.content_uid LEFT JOIN genres g ON cg.genre_uid = g.uid LEFT JOIN content_streaming_availability csa ON c.uid = csa.content_uid LEFT JOIN streaming_services ss ON csa.service_uid = ss.uid" ++
  whereSQL fs

/-- Everything the generated SQL text can depend on: which guards fired,
the recognised duration fragment, and the sizes of the value lists.
Caller-supplied values appear nowhere in it. -/
structure QueryShape where
  ct : Bool
  year : Bool
  rating : Bool
  parentalLen : Nat
  durationFragment : Option String
  genresLen : Nat
  exGenresLen : Nat
  servicesLen : Nat
  exServicesLen : Nat
deriving DecidableEq, Repr

def shapeOf (fs : FilterSpec) : QueryShape where
  ct := contentTypeActive fs
  year := yearActive fs
  rating := ratingActive fs
  parentalLen := fs.parental_ratings.length
  durationFragment :=
    if fs.preferred_duration_category != "any" then
      durationSQL fs.preferred_duration_category
    else none
  genresLen := optLen fs.genre_uids
  exGenresLen := fs.excluded_genre_uids.length
  servicesLen := optLen fs.streaming_service_uids
  exServicesLen := fs.excluded_service_uids.length

/-! ## Specification-side predicates (for refinement comparison)

These definitions follow the specification's words, not the source; they
exist to be compared with the source-derived definitions above. -/

/-- Modelled from the claim: under `duration_bucket = "short"` an item
satisfies the duration predicate exactly when it is a movie with
runtime < 60 or a series with exactly 1 season. -/
def claimShortBucket (c : Content) : Bool :=
  (c.content_type == "movie" &&
    ((c.duration_minutes.map (fun d => decide (d < 60))).getD false)) ||
  (c.content_type == "tv_show" &&
    ((c.number_of_seasons.map (fun n => n == 1)).getD false))

/-- Modelled from the claim: `"medium"` = movie with runtime between 60
and 120 inclusive, or series with 2 to 4 seasons inclusive. -/
def claimMediumBucket (c : Content) : Bool :=
  (c.content_type == "movie" &&
    ((c.duration_minutes.map (fun d => decide (60 ≤ d ∧ d ≤ 120))).getD false)) ||
  (c.content_type == "tv_show" &&
    ((c.number_of_seasons.map (fun n => decide (2 ≤ n ∧ n ≤ 4))).getD false))

/-- Modelled from the claim: `"long"` = movie with runtime > 120, or
series with more than 4 seasons. -/
def claimLongBucket (c : Content) : Bool :=
  (c.content_type == "movie" &&
    ((c.duration_minutes.map (fun d => decide (120 < d))).getD false)) ||
  (c.content_type == "tv_show" &&
    ((c.number_of_seasons.map (fun n => decide (4 < n))).getD false))

/-! ## Concrete fixtures (used by witnesses and counterexamples) -/

/-- A movie with no genre and no availability rows, satisfying every
default content-level predicate; tied ratings with `tieB`. -/
def tieA : Content :=
  { uid := "A", content_type := "movie", release_year := some 2000,
    duration_minutes := some 100, number_of_seasons := none,
    imdb_rating := some 5, rotten_tomatoes_score := some 50,
    parental_rating := some "PG" }

/-- Same rating pair as `tieA` — the ORDER BY does not separate them. -/
def tieB : Content := { tieA with uid := "B", duration_minutes := some 90 }

def stTies : Store := { contents := [tieA, tieB], content_genres := [], availability := [] }

/-- All destructuring defaults (the request body `{}`). -/
def fs0 : FilterSpec := {}

/-- A content item with zero genre rows and zero availability rows. -/
def loner : Content := { tieA with uid := "L" }

def stLoner : Store := { contents := [loner], content_genres := [], availability := [] }

/-- Exclusion-only filtering: one excluded genre, no inclusion sets. -/
def fsExclGenre : FilterSpec := { excluded_genre_uids := ["g1"] }

/-- Service-inclusion filtering only. -/
def fsInclService : FilterSpec := { streaming_service_uids := some ["netflix"] }

/-- An item carrying both an excluded genre and a non-excluded genre. -/
def dualGenre : Content := { tieA with uid := "G" }

def stDual : Store :=
  { contents := [dualGenre], content_genres := [("G", "g1"), ("G", "g2")],
    availability := [] }

/-- Release year above the caller-supplied maximum. -/
def futureMovie : Content := { tieA with uid := "F", release_year := some 2050 }

def stFuture : Store := { contents := [futureMovie], content_genres := [], availability := [] }

/-- Caller-supplied year bounds `min = 0`, `max = 2020` (`0 ≤ 2020`, a
valid range per the specification). -/
def fsZeroYear : FilterSpec := { min_release_year := 0, max_release_year := 2020 }

/-- Page `p` of size `ps`, all other criteria default. -/
def fsPage (p ps : Int) : FilterSpec := { page := p, page_size := ps }

/-- Two specifications differing only in a bound genre value. -/
def fsInjA : FilterSpec := { genre_uids := some ["action"] }

def fsInjB : FilterSpec := { genre_uids := some ["horror"] }

/-! ## Helper lemmas -/

theorem sortedTiesAB : sortedByRating [tieA, tieB] := by
  show List.Chain' _ _
  refine List.chain'_cons.mpr ⟨by decide, ?_⟩
  exact List.chain'_singleton _

theorem sortedTiesBA : sortedByRating [tieB, tieA] := by
  show List.Chain' _ _
  refine List.chain'_cons.mpr ⟨by decide, ?_⟩
  exact List.chain'_singleton _

/-- A row whose genre column is NULL fails the `g.uid IN (…)` clause. -/
theorem rowSatisfies_genre_null_false (fs : FilterSpec) (c : Content) (s : Option String)
    (hga : genresActive fs = true) : rowSatisfies fs c none s = false := by
  simp [rowSatisfies, hga, inClause]

/-- A row whose genre column fails `g.uid NOT IN (…)` fails the WHERE. -/
theorem rowSatisfies_exgenre_false (fs : FilterSpec) (c : Content) (g s : Option String)
    (hega : exGenresActive fs = true)
    (hng : notInClause g fs.excluded_genre_uids = false) :
    rowSatisfies fs c g s = false := by
  simp [rowSatisfies, hega, hng]

/-- Any row surviving the WHERE with the year clause active satisfies
`release_year BETWEEN min AND max`. -/
theorem rowSatisfies_year (fs : FilterSpec) (c : Content) (g s : Option String)
    (hy : yearActive fs = true) (h : rowSatisfies fs c g s = true) :
    yearOk fs.min_release_year fs.max_release_year c.release_year = true := by
  simp [rowSatisfies, baseOk, hy, Bool.and_eq_true] at h
  tauto

/-- The genre column of a joined row comes from the genre LEFT JOIN
chain of that content item. -/
theorem mem_joined_fst (st : Store) (c : Content) (g s : Option String)
    (h : (g, s) ∈ joinedRows st c) : g ∈ genreRows st c := by
  simp only [joinedRows, List.mem_flatMap, List.mem_map] at h
  obtain ⟨g', hg', s', _, heq⟩ := h
  obtain ⟨rfl, rfl⟩ := Prod.mk.injEq .. ▸ heq
  exact hg'

/-- A non-NULL genre value in the join chain is an actual
`content_genres` row of that content item. -/
theorem mem_genreRows_some (st : Store) (c : Content) (v : String)
    (h : (some v : Option String) ∈ genreRows st c) :
    (c.uid, v) ∈ st.content_genres := by
  simp only [genreRows] at h
  split at h
  · simp at h
  · simp only [List.mem_map, List.mem_filter] at h
    obtain ⟨p, ⟨hp, hp1⟩, hpv⟩ := h
    have h1 : p.1 = c.uid := by simpa using hp1
    have h2 : p.2 = v := by simpa using hpv
    have : p = (c.uid, v) := by
      cases p; simp_all
    exact this ▸ hp

/-- The service column of a joined row comes from the availability LEFT
JOIN chain of that content item. -/
theorem mem_joined_snd (st : Store) (c : Content) (g s : Option String)
    (h : (g, s) ∈ joinedRows st c) : s ∈ serviceRows st c := by
  simp only [joinedRows, List.mem_flatMap, List.mem_map] at h
  obtain ⟨g', _, s', hs', heq⟩ := h
  obtain ⟨rfl, rfl⟩ := Prod.mk.injEq .. ▸ heq
  exact hs'

/-- Every pair from the two LEFT JOIN chains occurs as a joined row
(the chains multiply out to a cross product). -/
theorem mem_joined_intro (st : Store) (c : Content) (g s : Option String)
    (hg : g ∈ genreRows st c) (hs : s ∈ serviceRows st c) :
    (g, s) ∈ joinedRows st c := by
  simp only [joinedRows, List.mem_flatMap, List.mem_map]
  exact ⟨g, hg, s, hs, rfl⟩

/-- The WHERE conjunction on one joined row splits into the
content-level conjuncts, the genre conjuncts, and the service
conjuncts. -/
theorem rowSatisfies_factor (fs : FilterSpec) (c : Content) (g s : Option String) :
    rowSatisfies fs c g s =
      (baseOk fs c && genreClausesOk fs g && serviceClausesOk fs s) := by
  simp [rowSatisfies, genreClausesOk, serviceClausesOk, Bool.and_assoc]

/-- Because `WHERE` evaluates row-wise on the cross product of the two
LEFT JOIN chains, an item matches iff the content-level conjuncts hold
and each chain contributes at least one passing column value. -/
theorem matchesFilter_factor (fs : FilterSpec) (st : Store) (c : Content) :
    matchesFilter fs st c =
      (baseOk fs c && (genreRows st c).any (fun g => genreClausesOk fs g) &&
        (serviceRows st c).any (fun s => serviceClausesOk fs s)) := by
  rw [Bool.eq_iff_iff]
  simp only [matchesFilter, List.any_eq_true, Bool.and_eq_true, rowSatisfies_factor]
  constructor
  · rintro ⟨⟨g, s⟩, hmem, ⟨hbase, hgok⟩, hsok⟩
    exact ⟨⟨hbase, g, mem_joined_fst st c g s hmem, hgok⟩,
           s, mem_joined_snd st c g s hmem, hsok⟩
  · rintro ⟨⟨hbase, g, hg, hgok⟩, s, hs, hsok⟩
    exact ⟨(g, s), mem_joined_intro st c g s hg hs, ⟨hbase, hgok⟩, hsok⟩

/-- On a NULL genre column the genre conjuncts hold iff neither genre
filter is active. -/
theorem genreClausesOk_none (fs : FilterSpec) :
    genreClausesOk fs none = (!genresActive fs && !exGenresActive fs) := by
  cases hga : genresActive fs <;> cases hega : exGenresActive fs <;>
    simp [genreClausesOk, inClause, notInClause, hga, hega]

/-- On a NULL service column the service conjuncts hold iff neither
service filter is active. -/
theorem serviceClausesOk_none (fs : FilterSpec) :
    serviceClausesOk fs none = (!servicesActive fs && !exServicesActive fs) := by
  cases hsa : servicesActive fs <;> cases hesa : exServicesActive fs <;>
    simp [serviceClausesOk, inClause, notInClause, hsa, hesa]

end CineCrib

namespace CineCrib

/-! ## Claim theorems -/

/-- C10: `total_results` depends only on the filter predicates — the
count query is executed with the parameter list as it stands before
`page_size`/`offset` are pushed, so two requests differing only in
`page` and/or `page_size` yield the same count. -/
theorem total_results_independent_of_pagination (fs : FilterSpec) (st : Store) (p q : Int) :
    countDistinct { fs with page := p, page_size := q } st = countDistinct fs st := by
  cases fs; rfl

/-- C3 (code bug): the handler performs no validation whatsoever — with
`page_size = 0`, which is outside the required `[1,100]`, it executes
both queries and responds 200 with a success envelope instead of
failing with a `ValidationError` before any query runs. -/
theorem handler_skips_validation :
    handle 2026 { page_size := some 0 } stTies = RecResponse.success 2 1 0 := by decide

/-- C6 counterexample: with caller-supplied bounds `min = 0`,
`max = 2020` the year predicate is NOT applied (JavaScript `0` is
falsy), so a 2050 release is returned and counted even though it fails
`release_year BETWEEN 0 AND 2020` — the code's own clause would have
rejected it. -/
theorem year_filter_skipped_for_zero_bound :
    countDistinct fsZeroYear stFuture = 1 ∧
    yearOk fsZeroYear.min_release_year fsZeroYear.max_release_year
      futureMovie.release_year = false := by decide

/-- C9 counterexample: `dualGenre` possesses excluded genre `g1` (and
also `g2`); with `excluded_genres = {g1}` it is still returned and
counted, because `g.uid NOT IN (…)` filters join rows, not items. -/
theorem excluded_genre_item_still_returned :
    matchesFilter fsExclGenre stDual dualGenre = true ∧
    countDistinct fsExclGenre stDual = 1 ∧
    (dualGenre.uid, "g1") ∈ stDual.content_genres ∧
    "g1" ∈ fsExclGenre.excluded_genre_uids := by decide

/-- C2 counterexample: an item with zero genre rows and zero
availability rows satisfies every remaining predicate
(`baseOk … = true`), yet under exclusion-only filtering
(`excluded_genres = {g1}`, both inclusion sets empty) it is dropped
from both the results and the count: its joined row has a NULL genre
column, and `NULL NOT IN ('g1')` is UNKNOWN, not TRUE. -/
theorem no_rows_item_dropped_under_exclusion_only :
    baseOk fsExclGenre loner = true ∧
    matchesFilter fsExclGenre stLoner loner = false ∧
    countDistinct fsExclGenre stLoner = 0 := by decide

/-- C5: the duration-bucket WHERE condition agrees exactly with the
claimed characterization for each of the three buckets (a missing
runtime or season count satisfies no bucket, matching SQL NULL
comparisons). -/
theorem duration_bucket_semantics (fs : FilterSpec) (c : Content) :
    durationOk { fs with preferred_duration_category := "short" } c = claimShortBucket c ∧
    durationOk { fs with preferred_duration_category := "medium" } c = claimMediumBucket c ∧
    durationOk { fs with preferred_duration_category := "long" } c = claimLongBucket c := by
  obtain ⟨u, t, y, d, n, i, r, pr⟩ := c
  refine ⟨?_, ?_, ?_⟩ <;>
    cases d <;> cases n <;>
      simp [durationOk, durationCondition, claimShortBucket, claimMediumBucket,
        claimLongBucket, Bool.decide_and]

/-- C6 (amended): the defaults for absent year bounds are
`[1900, current_year]`, and since both are truthy the BETWEEN predicate
is then applied — so with no caller-supplied bounds every match
satisfies `release_year BETWEEN 1900 AND current_year`.  (The predicate
is applied exactly when both bounds are JavaScript-truthy, i.e.
non-zero; see the counterexample for a zero bound.) -/
theorem year_defaults_and_truthiness (cy : Int) (raw : RawRequest) (st : Store) (c : Content)
    (hmin : raw.min_release_year = none) (hmax : raw.max_release_year = none)
    (hcy : cy ≠ 0) :
    (normalize cy raw).min_release_year = 1900 ∧
    (normalize cy raw).max_release_year = cy ∧
    yearActive (normalize cy raw) = true ∧
    (matchesFilter (normalize cy raw) st c = true →
      yearOk 1900 cy c.release_year = true) := by
  have h1 : (normalize cy raw).min_release_year = 1900 := by
    simp [normalize, hmin]
  have h2 : (normalize cy raw).max_release_year = cy := by
    simp [normalize, hmax]
  have hy : yearActive (normalize cy raw) = true := by
    simp only [yearActive, h1, h2, Bool.and_eq_true, bne_iff_ne]
    exact ⟨by decide, hcy⟩
  refine ⟨h1, h2, hy, ?_⟩
  intro hm
  simp only [matchesFilter, List.any_eq_true] at hm
  obtain ⟨r, _, hsat⟩ := hm
  have hYear := rowSatisfies_year _ _ _ _ hy hsat
  rwa [h1, h2] at hYear

/-- C6 witness: an empty request body against the 2050-release store —
the defaults land, the clause is active, and the match implication is
available at `futureMovie`. -/
theorem year_defaults_and_truthiness_witness :
    (normalize 2026 {}).min_release_year = 1900 ∧
    (normalize 2026 {}).max_release_year = 2026 ∧
    yearActive (normalize 2026 {}) = true ∧
    (matchesFilter (normalize 2026 {}) stFuture futureMovie = true →
      yearOk 1900 2026 futureMovie.release_year = true) :=
  year_defaults_and_truthiness 2026 {} stFuture futureMovie rfl rfl (by decide)

/-- C9 (amended): genre filtering is row-level, not item-level.  With a
non-empty `included_genres` every returned item really has at least one
genre in the inclusion set (that half of the claim holds); but with a
non-empty `excluded_genres` an item is dropped only when ALL of its
genre rows (or its single NULL row, if it has none) fail
`g.uid NOT IN (…)` — an item carrying an excluded genre together with a
non-excluded one is still returned (see the counterexample). -/
theorem genre_filters_row_level_semantics (fs : FilterSpec) (st : Store) (c : Content) :
    (matchesFilter fs st c = true → genresActive fs = true →
      ∃ v, (c.uid, v) ∈ st.content_genres ∧ v ∈ fs.genre_uids.getD []) ∧
    ((∀ p ∈ st.content_genres, p.1 = c.uid → p.2 ∈ fs.excluded_genre_uids) →
      exGenresActive fs = true → matchesFilter fs st c = false) := by
  constructor
  · intro hm hga
    simp only [matchesFilter, List.any_eq_true] at hm
    obtain ⟨⟨g, s⟩, hmem, hsat⟩ := hm
    have hin : inClause g (fs.genre_uids.getD []) = true := by
      simp only [rowSatisfies, hga, if_true, Bool.and_eq_true] at hsat
      tauto
    match g, hin with
    | some v, hin =>
      have hv : v ∈ fs.genre_uids.getD [] := by simpa [inClause] using hin
      exact ⟨v, mem_genreRows_some st c v (mem_joined_fst st c _ s hmem), hv⟩
  · intro hall hega
    simp only [matchesFilter, List.any_eq_false]
    rintro ⟨g, s⟩ hmem
    rw [Bool.not_eq_true]
    apply rowSatisfies_exgenre_false fs c g s hega
    match g with
    | none => rfl
    | some v =>
      have hv : (c.uid, v) ∈ st.content_genres :=
        mem_genreRows_some st c v (mem_joined_fst st c _ s hmem)
      have : v ∈ fs.excluded_genre_uids := hall _ hv rfl
      simp [notInClause, this]

/-- C9 witness: the inclusion half at `included_genres = {g2}` (the item
has genre row `g2`), and the exclusion half at an item all of whose
genres are excluded. -/
theorem genre_filters_row_level_semantics_witness :
    (∃ v, (dualGenre.uid, v) ∈ stDual.content_genres ∧
      v ∈ (some ["g2"] : Option (List String)).getD []) ∧
    matchesFilter { excluded_genre_uids := ["g1", "g2"] } stDual dualGenre = false := by
  constructor
  · exact (genre_filters_row_level_semantics { genre_uids := some ["g2"] } stDual
      dualGenre).1 (by decide) (by decide)
  · exact (genre_filters_row_level_semantics { excluded_genre_uids := ["g1", "g2"] }
      stDual dualGenre).2 (by decide) (by decide)

/-- C2 (amended): an item with zero rows in a join table is dropped
whenever the corresponding filter — inclusion OR exclusion — is active
(its joined rows carry NULL in that column, and both `NULL IN (…)` and
`NULL NOT IN (…)` are UNKNOWN).  With no genre (resp. service) filter
active, an item with zero genre (resp. availability) rows participates
exactly through the content-level predicates and the other join chain,
so it still appears when those pass; an item with zero rows in both
tables appears exactly when it passes the content-level predicates and
no genre/service filter at all is active. -/
theorem no_join_rows_characterization (fs : FilterSpec) (st : Store) (c : Content) :
    (st.content_genres.filter (fun p => p.1 == c.uid) = [] →
      matchesFilter fs st c =
        (baseOk fs c && !genresActive fs && !exGenresActive fs &&
          (serviceRows st c).any (fun s => serviceClausesOk fs s)) ∧
      ((genresActive fs || exGenresActive fs) = true → matchesFilter fs st c = false)) ∧
    (st.availability.filter (fun p => p.1 == c.uid) = [] →
      matchesFilter fs st c =
        (baseOk fs c && !servicesActive fs && !exServicesActive fs &&
          (genreRows st c).any (fun g => genreClausesOk fs g)) ∧
      ((servicesActive fs || exServicesActive fs) = true → matchesFilter fs st c = false)) ∧
    (st.content_genres.filter (fun p => p.1 == c.uid) = [] →
      st.availability.filter (fun p => p.1 == c.uid) = [] →
      matchesFilter fs st c =
        (baseOk fs c && !genresActive fs && !exGenresActive fs &&
         !servicesActive fs && !exServicesActive fs)) := by
  refine ⟨?_, ?_, ?_⟩
  · intro hg
    have hgr : genreRows st c = [none] := by simp [genreRows, hg]
    have hchar : matchesFilter fs st c =
        (baseOk fs c && !genresActive fs && !exGenresActive fs &&
          (serviceRows st c).any (fun s => serviceClausesOk fs s)) := by
      rw [matchesFilter_factor, hgr]
      simp [genreClausesOk_none, Bool.and_assoc]
    refine ⟨hchar, ?_⟩
    intro hact
    rw [hchar]
    rcases (by simpa using hact : genresActive fs = true ∨ exGenresActive fs = true)
      with h | h <;> simp [h]
  · intro hs
    have hsr : serviceRows st c = [none] := by simp [serviceRows, hs]
    have hchar : matchesFilter fs st c =
        (baseOk fs c && !servicesActive fs && !exServicesActive fs &&
          (genreRows st c).any (fun g => genreClausesOk fs g)) := by
      rw [matchesFilter_factor, hsr]
      simp [serviceClausesOk_none, Bool.and_assoc, Bool.and_comm, Bool.and_left_comm]
    refine ⟨hchar, ?_⟩
    intro hact
    rw [hchar]
    rcases (by simpa using hact : servicesActive fs = true ∨ exServicesActive fs = true)
      with h | h <;> simp [h]
  · intro hg hs
    have hgr : genreRows st c = [none] := by simp [genreRows, hg]
    have hsr : serviceRows st c = [none] := by simp [serviceRows, hs]
    rw [matchesFilter_factor, hgr, hsr]
    simp [genreClausesOk_none, serviceClausesOk_none, Bool.and_assoc]

/-- C2 witness: exclusion-only genre filtering drops the no-rows item
even though it passes the content-level predicates; a service-inclusion
filter drops an item that has genre rows but zero availability rows;
with no set filter active, an item with rows in only one table — or in
neither — still appears. -/
theorem no_join_rows_characterization_witness :
    matchesFilter fsExclGenre stLoner loner = false ∧
    matchesFilter fsInclService stDual dualGenre = false ∧
    matchesFilter fs0 stDual dualGenre = true ∧
    matchesFilter fs0 stLoner loner = true := by
  refine ⟨?_, ?_, ?_, ?_⟩
  · exact ((no_join_rows_characterization fsExclGenre stLoner loner).1
      (by decide)).2 (by decide)
  · exact ((no_join_rows_characterization fsInclService stDual dualGenre).2.1
      (by decide)).2 (by decide)
  · have h := ((no_join_rows_characterization fs0 stDual dualGenre).2.1
      (by decide)).1
    rw [h]
    decide
  · have h := (no_join_rows_characterization fs0 stLoner loner).2.2
      (by decide) (by decide)
    rw [h]
    decide

end CineCrib

namespace CineCrib

/-- A uid occurs among the WHERE-surviving joined rows iff it is the uid
of a WHERE-surviving group of the page query. -/
theorem mem_uids_iff (fs : FilterSpec) (st : Store) (a : String) :
    a ∈ (((allRows st).filter
            (fun r => rowSatisfies fs r.1 r.2.1 r.2.2)).map (fun r => r.1.uid)) ↔
    a ∈ (pageGroups fs st).map Content.uid := by
  simp only [allRows, pageGroups, matchesFilter, List.mem_map, List.mem_filter,
    List.mem_flatMap, List.any_eq_true]
  constructor
  · rintro ⟨r, ⟨⟨c, hc, gs, hgs, rfl⟩, hsat⟩, ha⟩
    exact ⟨c, ⟨hc, gs, hgs, hsat⟩, ha⟩
  · rintro ⟨c, ⟨hc, gs, hgs, hsat⟩, ha⟩
    exact ⟨(c, gs.1, gs.2), ⟨⟨c, hc, gs, hgs, rfl⟩, hsat⟩, ha⟩

/-- Core of C1: `COUNT(DISTINCT c.uid)` over the shared WHERE equals the
number of groups the page query produces with no LIMIT/OFFSET. -/
theorem countDistinct_eq_length (fs : FilterSpec) (st : Store) (hwf : wf st) :
    countDistinct fs st = (pageGroups fs st).length := by
  have hnd : ((pageGroups fs st).map Content.uid).Nodup :=
    ((List.filter_sublist st.contents).map Content.uid).nodup hwf
  have hperm :
      ((((allRows st).filter
          (fun r => rowSatisfies fs r.1 r.2.1 r.2.2)).map (fun r => r.1.uid)).dedup).Perm
        ((pageGroups fs st).map Content.uid) := by
    rw [List.perm_ext_iff_of_nodup (List.nodup_dedup _) hnd]
    intro a
    rw [List.mem_dedup]
    exact mem_uids_iff fs st a
  have := hperm.length_eq
  rw [countDistinct, this, List.length_map]

/-- C1: for every Filter Specification and fixed store, `total_results`
(the count query) equals the number of distinct content ids satisfying
the full shared predicate conjunction with no limit/offset (the page
query's group count) — both queries use the identical `whereClauses`. -/
theorem total_results_counts_distinct_matches (fs : FilterSpec) (st : Store)
    (hwf : wf st) : countDistinct fs st = (pageGroups fs st).length :=
  countDistinct_eq_length fs st hwf

/-- C1 witness: concrete two-item store with distinct uids. -/
theorem total_results_counts_distinct_matches_witness :
    countDistinct fs0 stTies = (pageGroups fs0 stTies).length :=
  total_results_counts_distinct_matches fs0 stTies
    (by show (stTies.contents.map Content.uid).Nodup; decide)

/-- C4 counterexample: on a store with two items carrying identical
`(rotten_tomatoes_score, imdb_rating)` pairs, both `[tieA, tieB]` and
`[tieB, tieA]` are admissible responses of the page query — the
`ORDER BY` imposes no tie-break, so the returned order is NOT
deterministic. -/
theorem page_order_not_deterministic :
    execPage fs0 stTies [tieA, tieB] ∧ execPage fs0 stTies [tieB, tieA] ∧
    ([tieA, tieB] : List Content) ≠ [tieB, tieA] := by
  refine ⟨⟨by decide, by decide, [tieA, tieB], by decide, sortedTiesAB, by decide⟩,
          ⟨by decide, by decide, [tieB, tieA], by decide, sortedTiesBA, by decide⟩,
          by decide⟩

/-- C4 (amended): every admissible page response is non-increasing in
the `(audience, critic)` rating key, has at most `page_size` entries,
consists only of matching items, and is the `OFFSET (page-1)*page_size
LIMIT page_size` slice of SOME admissible full ordering — but the tie
order is unspecified, not deterministic. -/
theorem page_query_sorted_slice (fs : FilterSpec) (st : Store) (res : List Content)
    (h : execPage fs st res) :
    res.Chain' (fun a b => rankGe a b = true) ∧
    res.length ≤ fs.page_size.toNat ∧
    (∀ c, c ∈ res → matchesFilter fs st c = true) ∧
    (∃ L : List Content, L.Perm (pageGroups fs st) ∧ sortedByRating L ∧
      res = (L.drop (offsetOf fs).toNat).take fs.page_size.toNat) := by
  obtain ⟨_, _, L, hperm, hsort, hres⟩ := h
  subst hres
  have hchain : List.Chain' (fun a b => rankGe a b = true) L := hsort
  refine ⟨(hchain.drop _).take _, List.length_take_le _ _, ?_, L, hperm, hsort, rfl⟩
  intro c hc
  have hcL : c ∈ L := List.mem_of_mem_drop (List.mem_of_mem_take hc)
  exact (List.mem_filter.mp (hperm.subset hcL)).2

/-- C4 witness: the sorted-slice consequences at a concrete execution. -/
theorem page_query_sorted_slice_witness :
    ([tieA, tieB] : List Content).Chain' (fun a b => rankGe a b = true) ∧
    ([tieA, tieB] : List Content).length ≤ (fs0.page_size).toNat ∧
    (∀ c, c ∈ ([tieA, tieB] : List Content) → matchesFilter fs0 stTies c = true) ∧
    (∃ L : List Content, L.Perm (pageGroups fs0 stTies) ∧ sortedByRating L ∧
      ([tieA, tieB] : List Content) =
        (L.drop (offsetOf fs0).toNat).take fs0.page_size.toNat) :=
  page_query_sorted_slice fs0 stTies [tieA, tieB]
    ⟨by decide, by decide, [tieA, tieB], by decide, sortedTiesAB, by decide⟩

/-- C8: the generated SQL text of both queries is a function of the
query shape alone (which predicates fired, the recognised duration
fragment, and the value-set sizes); every caller-supplied value reaches
the text only as a `$k` placeholder, never interpolated. -/
theorem sql_text_depends_only_on_shape (s1 s2 : FilterSpec)
    (h : shapeOf s1 = shapeOf s2) :
    pageQuerySQL s1 = pageQuerySQL s2 ∧ countQuerySQL s1 = countQuerySQL s2 := by
  simp only [shapeOf, QueryShape.mk.injEq] at h
  obtain ⟨hct, hy, hr, hplen, hdur, hglen, heglen, hslen, heslen⟩ := h
  have hpa : parentalActive s1 = parentalActive s2 := by
    unfold parentalActive; rw [hplen]
  have hga : genresActive s1 = genresActive s2 := by
    unfold genresActive; rw [hglen]
  have hega : exGenresActive s1 = exGenresActive s2 := by
    unfold exGenresActive; rw [heglen]
  have hsa : servicesActive s1 = servicesActive s2 := by
    unfold servicesActive; rw [hslen]
  have hesa : exServicesActive s1 = exServicesActive s2 := by
    unfold exServicesActive; rw [heslen]
  have hwc : whereClauses s1 = whereClauses s2 := by
    unfold whereClauses ctParams yearParams ratingParams parentalParams
      genresParams exGenresParams servicesParams exServicesParams
    rw [hct, hy, hr, hpa, hplen, hdur, hga, hglen, hega, heglen, hsa, hslen,
      hesa, heslen]
  have htp : totalParams s1 = totalParams s2 := by
    unfold totalParams ctParams yearParams ratingParams parentalParams
      genresParams exGenresParams servicesParams exServicesParams
    rw [hct, hy, hr, hplen, hglen, heglen, hslen, heslen]
  have hws : whereSQL s1 = whereSQL s2 := by
    unfold whereSQL; rw [hwc]
  constructor
  · unfold pageQuerySQL; rw [hws, htp]
  · unfold countQuerySQL; rw [hws]

/-- C8 witness: two specifications differing only in the genre value
(`action` vs `horror`) have equal shapes and produce byte-identical
query texts. -/
theorem sql_text_depends_only_on_shape_witness :
    fsInjA ≠ fsInjB ∧
    pageQuerySQL fsInjA = pageQuerySQL fsInjB ∧
    countQuerySQL fsInjA = countQuerySQL fsInjB :=
  ⟨by decide, sql_text_depends_only_on_shape fsInjA fsInjB (by decide)⟩

/-- Concatenating the `LIMIT ps OFFSET i*ps` slices for
`i = 0, …, k-1` recovers the whole list once `k*ps` covers its length. -/
theorem flatMap_chunks {α : Type} (ps : Nat) (_hps : 0 < ps) :
    ∀ (k : Nat) (L : List α), L.length ≤ k * ps →
      (List.range k).flatMap (fun i => (L.drop (i * ps)).take ps) = L := by
  intro k
  induction k with
  | zero =>
    intro L hL
    have hnil : L = [] := by
      cases L with
      | nil => rfl
      | cons a t => simp at hL
    subst hnil; rfl
  | succ k ih =>
    intro L hL
    rw [List.range_succ_eq_map, List.flatMap_cons, List.flatMap_map]
    have hstep : ∀ i : Nat, (L.drop (Nat.succ i * ps)).take ps =
        ((L.drop ps).drop (i * ps)).take ps := by
      intro i
      rw [List.drop_drop, Nat.succ_mul, Nat.add_comm (i * ps) ps]
    simp only [hstep, Nat.zero_mul, List.drop_zero]
    rw [ih (L.drop ps) ?_]
    · exact List.take_append_drop ps L
    · rw [List.length_drop, Nat.succ_mul] at *
      omega

/-- Bound `n ≤ ⌈n/ps⌉ * ps` for `ps > 0`, with the ceiling written as the
source's pagination math `(n + ps - 1) / ps`. -/
theorem le_ceil_mul (n ps : Nat) (hps : 0 < ps) : n ≤ ((n + ps - 1) / ps) * ps := by
  by_contra hcon
  push_neg at hcon
  have hk : (n + ps - 1) / ps + 1 ≤ (n + ps - 1) / ps := by
    rw [Nat.le_div_iff_mul_le hps, Nat.add_mul, Nat.one_mul]
    generalize (n + ps - 1) / ps * ps = A at hcon ⊢
    omega
  exact Nat.not_succ_le_self _ hk

/-- The WHERE predicates never read `page`/`page_size`, so the grouped
matching set is invariant under them. -/
theorem pageGroups_pagination (fs : FilterSpec) (st : Store) (p q : Int) :
    pageGroups { fs with page := p, page_size := q } st = pageGroups fs st := by
  cases fs; rfl

/-- Distinct primary keys make the matching groups' uid list duplicate
free. -/
theorem nodup_pageGroups_uid (fs : FilterSpec) (st : Store) (hwf : wf st) :
    ((pageGroups fs st).map Content.uid).Nodup :=
  ((List.filter_sublist st.contents).map Content.uid).nodup hwf

/-- C7 (amended): fix ONE admissible ordering `L` of the matching set —
i.e. assume all page-query executions agree on the tie order.  Then the
concatenation of the slices for pages `1 … ceil(total_results/ps)`
is exactly `L`; each slice is an admissible response for its page; and
the concatenation contains every matching content id exactly once.
(Without the fixed-ordering assumption this fails; see the
counterexample.) -/
theorem pages_partition_fixed_ordering (fs : FilterSpec) (st : Store)
    (L : List Content) (ps : Nat) (hwf : wf st) (hps : 0 < ps)
    (hperm : L.Perm (pageGroups fs st)) (hsort : sortedByRating L) :
    ((List.range ((countDistinct fs st + ps - 1) / ps)).flatMap
        (fun i => (L.drop (i * ps)).take ps)) = L ∧
    (∀ p : Nat, 1 ≤ p →
      execPage { fs with page := (p : Int), page_size := (ps : Int) } st
        ((L.drop ((p - 1) * ps)).take ps)) ∧
    (∀ u : String,
      (((List.range ((countDistinct fs st + ps - 1) / ps)).flatMap
          (fun i => (L.drop (i * ps)).take ps)).map Content.uid).count u =
        if u ∈ (pageGroups fs st).map Content.uid then 1 else 0) := by
  have hlen : L.length = countDistinct fs st := by
    rw [hperm.length_eq, countDistinct_eq_length fs st hwf]
  have hchunks :
      (List.range ((countDistinct fs st + ps - 1) / ps)).flatMap
        (fun i => (L.drop (i * ps)).take ps) = L := by
    apply flatMap_chunks ps hps
    rw [hlen]
    exact le_ceil_mul _ ps hps
  refine ⟨hchunks, ?_, ?_⟩
  · intro p hp
    have h1 : (((p : Int) - 1) * (ps : Int)).toNat = (p - 1) * ps := by
      have hc : ((p : Int) - 1) = ((p - 1 : Nat) : Int) := by omega
      rw [hc, ← Int.natCast_mul, Int.toNat_natCast]
    refine ⟨?_, ?_, L, ?_, hsort, ?_⟩
    · show (0 : Int) ≤ ((p : Int) - 1) * (ps : Int)
      have hpc : (0 : Int) ≤ (p : Int) - 1 := by omega
      exact mul_nonneg hpc (by positivity)
    · show (0 : Int) ≤ (ps : Int)
      positivity
    · rw [pageGroups_pagination]
      exact hperm
    · show (L.drop ((p - 1) * ps)).take ps =
        (L.drop ((((p : Int) - 1) * (ps : Int)).toNat)).take ((ps : Int)).toNat
      rw [h1, Int.toNat_natCast]
  · intro u
    rw [hchunks, (hperm.map Content.uid).count_eq u]
    by_cases hu : u ∈ (pageGroups fs st).map Content.uid
    · rw [if_pos hu]
      exact List.count_eq_one_of_mem (nodup_pageGroups_uid fs st hwf) hu
    · rw [if_neg hu]
      exact List.count_eq_zero_of_not_mem hu

/-- C7 witness: two tied items, page size 1, fixed ordering
`[tieA, tieB]` — two pages reassembling the full list, with page 1 an
admissible execution and uid `"A"` appearing exactly once. -/
theorem pages_partition_fixed_ordering_witness :
    ((List.range ((countDistinct fs0 stTies + 1 - 1) / 1)).flatMap
        (fun i => (([tieA, tieB] : List Content).drop (i * 1)).take 1)) =
      [tieA, tieB] ∧
    execPage { fs0 with page := ((1 : Nat) : Int), page_size := ((1 : Nat) : Int) }
      stTies ((([tieA, tieB] : List Content).drop ((1 - 1) * 1)).take 1) ∧
    (((List.range ((countDistinct fs0 stTies + 1 - 1) / 1)).flatMap
        (fun i => (([tieA, tieB] : List Content).drop (i * 1)).take 1)).map
          Content.uid).count "A" =
      if "A" ∈ (pageGroups fs0 stTies).map Content.uid then 1 else 0 := by
  have h := pages_partition_fixed_ordering fs0 stTies [tieA, tieB] 1
    (by show (stTies.contents.map Content.uid).Nodup; decide) (by decide)
    (by decide) sortedTiesAB
  exact ⟨h.1, h.2.1 1 (le_refl 1), h.2.2 "A"⟩

/-- C7 counterexample: without a shared tie order the pages do NOT
partition the matching set — with `page_size = 1` and two tied matching
items, pages 1 and 2 can BOTH return `tieA` (page 1 slicing the
ordering `[tieA, tieB]`, page 2 slicing `[tieB, tieA]`), so the
concatenation repeats `tieA` and omits `tieB` even though
`total_results = 2` announces two pages. -/
theorem pagination_duplicates_under_ties :
    execPage (fsPage 1 1) stTies [tieA] ∧
    execPage (fsPage 2 1) stTies [tieA] ∧
    countDistinct (fsPage 1 1) stTies = 2 ∧
    (([tieA] ++ [tieA]).map Content.uid).count "B" = 0 := by
  refine ⟨⟨by decide, by decide, [tieA, tieB], by decide, sortedTiesAB, by decide⟩,
          ⟨by decide, by decide, [tieB, tieA], by decide, sortedTiesBA, by decide⟩,
          by decide, by decide⟩

end CineCrib
